import Mathlib

/-!
Verification development for the cloudflare-email-system repository.

The repository ships `src/api.ts` (the HTTP routing and endpoint handlers)
together with a README.  The collaborating modules it imports — `auth.ts`
(AuthService: bearer-token authentication, user registry, rate limiting and
the RATE_LIMITS policy table), `database.ts` (message/attachment metadata
queries) and `utils.ts` (response envelope and email validation helpers) —
are not part of the source drop, so those components are modelled from the
specification (each such definition carries a `Modelled from the spec:` doc
comment).  `api.ts` itself is embedded faithfully below: the routing chain,
the order of rate-limit / authentication gates, and each handler's branch
structure follow the TypeScript line by line.

Strings are manipulated through structurally recursive helpers over
`List Char` (mirroring the semantics of the JavaScript operations used by
the code: `split('/')`, `startsWith`, `toLowerCase`, `parseInt` on digit
strings) so that every definition evaluates inside the kernel.
-/

/-- Structurally recursive prefix test on character lists: `leadsWith pat cs`
is true when `pat` is an initial run of `cs`.  Mirrors JS `String.startsWith`. -/
def leadsWith : List Char → List Char → Bool
  | [], _ => true
  | _ :: _, [] => false
  | a :: as, b :: bs => a == b && leadsWith as bs

/-- Test whether the string `s` starts with `pat` (JS `s.startsWith(pat)`). -/
def strStarts (s pat : String) : Bool := leadsWith pat.toList s.toList

/-- Test whether the string `s` ends with `pat` (JS `s.endsWith(pat)`). -/
def strEnds (s pat : String) : Bool := leadsWith pat.toList.reverse s.toList.reverse

/-- Helper for `splitChar`: walks the character list, cutting at every
occurrence of the separator, accumulating the current segment reversed. -/
def splitCharAux (c : Char) : List Char → List Char → List String
  | [], acc => [String.mk acc.reverse]
  | x :: xs, acc =>
    if x = c then String.mk acc.reverse :: splitCharAux c xs []
    else splitCharAux c xs (x :: acc)

/-- Split a string at every occurrence of a separator character, keeping empty
segments — the semantics of JS `s.split(c)` for a one-character separator. -/
def splitChar (c : Char) (s : String) : List String := splitCharAux c s.toList []

/-- Path segments of a URL pathname, in JS `pathname.split('/')` order:
`"/api/messages/7"` yields `["", "api", "messages", "7"]`. -/
def pathSegs (p : String) : List String := splitChar '/' p

/-- Last segment of a pathname — JS `pathname.split('/').pop()`. -/
def lastSegment (p : String) : String := (pathSegs p).getLastD ""

/-- Segment at index `i` of a pathname — JS `pathname.split('/')[i]`. -/
def segAt (p : String) (i : Nat) : String := (pathSegs p).getD i ""

/-- ASCII lower-casing of one character, as JS `toLowerCase` acts on ASCII. -/
def lowerChar (c : Char) : Char :=
  if 65 ≤ c.toNat ∧ c.toNat ≤ 90 then Char.ofNat (c.toNat + 32) else c

/-- ASCII lower-casing of a string. -/
def lowerStr (s : String) : String := String.mk (s.toList.map lowerChar)

/-- Decimal digit test for a character. -/
def isDigitChar (c : Char) : Bool := decide (48 ≤ c.toNat) && decide (c.toNat ≤ 57)

/-- A nonempty all-digit string: what the route regexes `\d+` accept. -/
def allDigits (s : String) : Bool := !(decide (s = "")) && s.toList.all isDigitChar

/-- Numeric value of a digit string, as JS `parseInt` computes it on a string
of decimal digits. -/
def parseNatDigits (s : String) : Nat := s.toList.foldl (fun n c => n * 10 + (c.toNat - 48)) 0

/-- User record persisted by the Identity Registry (spec §3): id, unique
case-insensitive email, opaque bearer token, creation time, nullable last
login, status. -/
structure User where
  id : Nat
  email : String
  token : String
  created_at : Nat
  last_login : Option Nat
  status : String
deriving DecidableEq

/-- Scope dimension of a policy (spec §3): per authenticated user or per
source address. -/
inductive Scope where
  | perUser
  | perIP
deriving DecidableEq

/-- Named rate-limit policy (spec §3): positive `max_requests` per
`window_seconds`, counted against one scope dimension. -/
structure Policy where
  name : String
  max_requests : Nat
  window_seconds : Nat
  scope : Scope
deriving DecidableEq

/-- Modelled from the spec: the RATE_LIMITS policy table of `auth.ts` is not
in the source drop; these are the spec §4.3 representative entries. -/
def API_CALLS : Policy := ⟨"api_calls", 100, 60, Scope.perUser⟩

/-- Modelled from the spec: the `login_attempts` entry of the policy table. -/
def LOGIN_ATTEMPTS : Policy := ⟨"login_attempts", 5, 60, Scope.perIP⟩

/-- Modelled from the spec: the `email_sending` entry of the policy table. -/
def EMAIL_SENDING : Policy := ⟨"email_sending", 20, 3600, Scope.perUser⟩

/-- Modelled from the spec: the `attachment_download` entry of the policy table. -/
def ATTACHMENT_DOWNLOAD : Policy := ⟨"attachment_download", 50, 3600, Scope.perUser⟩

/-- Key under which a counter lives in the Counter Store (spec §4.4 step 2):
the scope kind, scope value, policy name and window-bucket index.  The spec
concatenates the four components into one store key; the embedding keeps them
as the fields of a record, which preserves exactly the identity of the
concatenated components. -/
structure CKey where
  scopeKind : String
  scopeValue : String
  policyName : String
  bucket : Nat
deriving DecidableEq

/-- The identity dimension a policy counts against (spec glossary): the kind
tag together with the concrete value (user identity or source address). -/
structure ScopeKey where
  kind : String
  value : String
deriving DecidableEq

/-- The Counter Store contents: an association of store keys to counts.
`put` prepends, `get` finds the most recent binding, giving last-write-wins
key-value semantics; TTL-based expiry only deletes stale buckets (spec §3)
and is irrelevant to the claims, which address live buckets by key. -/
abbrev Store := List (CKey × Nat)

/-- Read the current counter for a key from the Counter Store (absent ↦ `none`). -/
def storeGet : Store → CKey → Option Nat
  | [], _ => none
  | (k', c) :: rest, k => if k' = k then some c else storeGet rest k

/-- Write a counter value for a key into the Counter Store. -/
def storePut (s : Store) (k : CKey) (c : Nat) : Store := (k, c) :: s

/-- Outcome of a rate-limit check (spec §4.4 contract): the Admit outcome
(rendered `allow` here, since the spec's name is a Lean keyword) or Deny
with a retry hint in seconds. -/
inductive Decision where
  | allow
  | deny (retryAfterSeconds : Nat)
deriving DecidableEq

/-- Store key for a scope key, policy and bucket index. -/
def ckey (sk : ScopeKey) (p : Policy) (b : Nat) : CKey :=
  ⟨sk.kind, sk.value, p.name, b⟩

/-- Modelled from the spec: the Rate Limiter of `auth.ts` is not in the
source drop; this is the fixed-window algorithm of spec §4.4.
Compute the bucket as `floor(now / window_seconds)`, read the counter for
the scope/policy/bucket key (absent counts as 0); if `count ≥ max_requests`
deny with the seconds remaining until the bucket boundary, otherwise write
`count + 1` and admit. -/
def checkAndConsume (store : Store) (now : Nat) (sk : ScopeKey) (p : Policy) :
    Decision × Store :=
  let b := now / p.window_seconds
  let key := ckey sk p b
  let count := (storeGet store key).getD 0
  if p.max_requests ≤ count then
    (Decision.deny (p.window_seconds - now % p.window_seconds), store)
  else
    (Decision.allow, storePut store key (count + 1))

/-- Run a sequence of `checkAndConsume` calls under one policy, each given as
a (time, scope key) pair, threading the Counter Store. -/
def runCalls (p : Policy) : List (Nat × ScopeKey) → Store → Store
  | [], store => store
  | c :: rest, store => runCalls p rest (checkAndConsume store c.1 c.2 p).2

/-- Transient infrastructure fault of an external store (spec §7
`StoreUnavailable`). -/
inductive StoreFault where
  | unavailable
  | timeout
deriving DecidableEq

/-- Modelled from the spec (§5, §7): the rate-limit decision when the Counter
Store read itself may fail.  On `unavailable`/`timeout` the policy is
fail-open — the request is admitted; on a successful read the fixed-window
rule of `checkAndConsume` applies to the fetched counter. -/
def checkAndConsumeFallible (fetched : Except StoreFault (Option Nat))
    (now : Nat) (p : Policy) : Decision :=
  match fetched with
  | Except.error _ => Decision.allow
  | Except.ok c =>
    if p.max_requests ≤ c.getD 0 then
      Decision.deny (p.window_seconds - now % p.window_seconds)
    else Decision.allow

/-- Authentication failure taxonomy (spec §4.2). -/
inductive AuthError where
  | MissingCredential
  | MalformedCredential
  | InvalidCredential
deriving DecidableEq

/-- Modelled from the spec (§4.2): extract the token from an Authorization
header value.  A value not of the `Bearer <token>` shape — including a bare
`Bearer` with no token — yields `none`. -/
def extractBearer (h : String) : Option String :=
  if leadsWith "Bearer ".toList h.toList then
    let t := String.mk (h.toList.drop 7)
    if t = "" then none else some t
  else none

/-- Modelled from the spec (§4.1): pure token lookup in the Identity
Registry; returns absent rather than failing when not found. -/
def findByToken (users : List User) (t : String) : Option User :=
  users.find? fun u => decide (u.token = t)

/-- Modelled from the spec (§3): emails are unique case-insensitively, so the
normal form is the lower-cased string. -/
def normalizeEmail (e : String) : String := lowerStr e

/-- Modelled from the spec (§4.1): pure email lookup in the Identity
Registry, matching on the normalized email. -/
def getUserByEmail (users : List User) (email : String) : Option User :=
  users.find? fun u => decide (normalizeEmail u.email = normalizeEmail email)

/-- Registration failure (spec §7): the email already has a User. -/
inductive RegError where
  | DuplicateUser
deriving DecidableEq

/-- Modelled from the spec (§4.1): `createUser` fails with `DuplicateUser`
when a User with the same normalized email exists, otherwise persists a new
User carrying a freshly generated token and returns it together with the
updated registry.  The db-assigned id and the randomly generated token enter
as parameters (`freshId`, `freshToken`), since the embedding is pure. -/
def createUser (users : List User) (email : String) (freshId : Nat)
    (freshToken : String) (now : Nat) : Except RegError (User × List User) :=
  if users.any (fun u => decide (normalizeEmail u.email = normalizeEmail email)) then
    Except.error RegError.DuplicateUser
  else
    let u : User := ⟨freshId, email, freshToken, now, none, "active"⟩
    Except.ok (u, users ++ [u])

/-- HTTP request method. -/
inductive Method where
  | GET
  | POST
  | PUT
  | DELETE
  | OPTIONS
deriving DecidableEq

/-- Incoming request, restricted to the fields the admission-control core
reads: method, URL pathname, the Authorization header value when present,
the `email` field of a JSON body when present, and the source address. -/
structure Req where
  method : Method
  pathname : String
  authorization : Option String
  bodyEmail : Option String
  ip : String
deriving DecidableEq

/-- Payload of a response body, one constructor per distinct body shape
produced by `api.ts`. -/
inductive RespData where
  | noBody
  | registeredUser (id : Nat) (email : String) (token : String) (created_at : Nat)
  | loggedInUser (id : Nat) (email : String) (token : String) (last_login : Option Nat)
  | profile (id : Nat) (email : String) (created_at : Nat) (last_login : Option Nat)
      (status : String)
  | messageBody (id : Nat)
  | file (r2_key : String)
  | health
  | plain (tag : String)
deriving DecidableEq

/-- HTTP response: status, the JSON envelope's success flag, error code and
message (spec §6), the typed body payload, response headers, and the
`Retry-After` seconds on a 429. -/
structure Response where
  status : Nat
  success : Bool
  code : String
  message : String
  data : RespData
  headers : List (String × String)
  retryAfter : Option Nat
deriving DecidableEq

/-- Modelled from the spec (§6 error envelope): `createErrorResponse` of
`utils.ts` builds the failure envelope with an error message, a machine code
and a status. -/
def createErrorResponse (message code : String) (status : Nat) : Response :=
  ⟨status, false, code, message, RespData.noBody, [], none⟩

/-- Modelled from the spec (§6): `createSuccessResponse` of `utils.ts`
builds a 200 success envelope around a data payload. -/
def createSuccessResponse (d : RespData) : Response :=
  ⟨200, true, "", "", d, [], none⟩

/-- Rate-limit denial response (spec §6): status 429, code `RATE_LIMITED`,
and a `Retry-After` value carrying the seconds until the window resets. -/
def rateLimitedResponse (retryAfter : Nat) : Response :=
  ⟨429, false, "RATE_LIMITED", "", RespData.noBody, [], some retryAfter⟩

/-- Modelled from the spec (§4.1 validator is out of scope): minimal
syntactic email check — one `@` with nonempty local part and domain. -/
def isValidEmail (e : String) : Bool :=
  match splitChar '@' e with
  | [l, d] => !(decide (l = "")) && !(decide (d = ""))
  | _ => false

/-- Modelled from the spec (§4.2): `authenticate(request)`.  Missing
Authorization header → `MissingCredential`; present but not of the
`Bearer <token>` shape → `MalformedCredential`; well-formed but unresolved by
the Identity Registry → `InvalidCredential`; otherwise the resolved User. -/
def authenticate (users : List User) (req : Req) : Except AuthError User :=
  match req.authorization with
  | none => Except.error AuthError.MissingCredential
  | some h =>
    match extractBearer h with
    | none => Except.error AuthError.MalformedCredential
    | some t =>
      match findByToken users t with
      | none => Except.error AuthError.InvalidCredential
      | some u => Except.ok u

/-- Modelled from the spec (§5, §7): authentication when the Identity
Registry lookup itself may fail.  The extraction steps are those of
`authenticate`; an unavailable registry is fail-closed — the request is
rejected as an `AuthError`, never admitted with unknown identity. -/
def authenticateFallible (lookup : Except StoreFault (Option User))
    (authorization : Option String) : Except AuthError User :=
  match authorization with
  | none => Except.error AuthError.MissingCredential
  | some h =>
    match extractBearer h with
    | none => Except.error AuthError.MalformedCredential
    | some _ =>
      match lookup with
      | Except.error _ => Except.error AuthError.InvalidCredential
      | Except.ok none => Except.error AuthError.InvalidCredential
      | Except.ok (some u) => Except.ok u

/-- Modelled from the spec (§6): `requireAuth` of `auth.ts` maps an
authentication failure to the 401 envelope — `AUTH_REQUIRED` for a missing
credential, `AUTH_INVALID` otherwise — and passes the resolved User through. -/
def requireAuth (users : List User) (req : Req) : Except Response User :=
  match authenticate users req with
  | Except.error AuthError.MissingCredential =>
      Except.error (createErrorResponse "未提供认证令牌" "AUTH_REQUIRED" 401)
  | Except.error _ =>
      Except.error (createErrorResponse "认证令牌无效" "AUTH_INVALID" 401)
  | Except.ok u => Except.ok u

/-- Modelled from the spec (§4.4 step 2, glossary): the scope value a policy
counts against — the caller's bearer credential for per-user policies (the
middleware runs before identity resolution) and the source address for
per-source policies. -/
def scopeKeyOf (req : Req) (p : Policy) : ScopeKey :=
  match p.scope with
  | Scope.perUser => ⟨"user", req.authorization.getD ""⟩
  | Scope.perIP => ⟨"ip", req.ip⟩

/-- Modelled from the spec (§6): `rateLimitMiddleware` of `auth.ts` runs
`checkAndConsume` for the request's scope under the given policy and returns
`none` (proceed) on admit, or the 429 denial response on deny, together with
the updated Counter Store. -/
def rateLimitMiddleware (store : Store) (now : Nat) (req : Req) (p : Policy) :
    Option Response × Store :=
  match checkAndConsume store now (scopeKeyOf req p) p with
  | (Decision.allow, s) => (none, s)
  | (Decision.deny r, s) => (some (rateLimitedResponse r), s)

/-- Message metadata row, restricted to the columns the admission logic
reads: id and owning user. -/
structure Message where
  id : Nat
  user_id : Nat
deriving DecidableEq

/-- Attachment metadata row, as read by `handleDownloadAttachment`. -/
structure Attachment where
  id : Nat
  message_id : Nat
  r2_key : String
  filename : String
  content_type : String
  size_bytes : Nat
deriving DecidableEq

/-- Modelled from the spec (metadata store is an out-of-scope collaborator):
`db.getMessageById(userId, messageId)` returns the message only when it
exists and is owned by that user. -/
def getMessageById (messages : List Message) (userId messageId : Nat) :
    Option Message :=
  messages.find? fun m => decide (m.id = messageId) && decide (m.user_id = userId)

/-- Modelled from the spec: `db.getAttachmentById` is a pure lookup by id. -/
def getAttachmentById (attachments : List Attachment) (attachmentId : Nat) :
    Option Attachment :=
  attachments.find? fun a => decide (a.id = attachmentId)

/-- World state threaded through the handlers: the Counter Store, the clock,
the user registry, the metadata rows, the set of existing blob-store keys,
and the id / token that the next successful registration would be assigned
(the embedding's stand-ins for the db sequence and the random generator). -/
structure Sys where
  store : Store
  now : Nat
  users : List User
  messages : List Message
  attachments : List Attachment
  blobs : List String
  freshId : Nat
  freshToken : String
deriving DecidableEq

/-- Result of handling a request: the response, the resulting Counter Store
and user registry, and whether attachment bytes were fetched from the blob
store while producing the response. -/
structure Outcome where
  resp : Response
  store : Store
  users : List User
  blobFetched : Bool
deriving DecidableEq

/-- Route pattern `^\/api\/messages\/\d+$` of `api.ts`: exactly the segments
`["", "api", "messages", <digits>]`. -/
def matchMessagePath (p : String) : Bool :=
  let segs := pathSegs p
  decide (segs.length = 4) && decide (segs.getD 0 "x" = "") &&
    decide (segs.getD 1 "" = "api") && decide (segs.getD 2 "" = "messages") &&
    allDigits (segs.getD 3 "")

/-- Route patterns `^\/api\/messages\/\d+\/read$` and `…\/star$` of `api.ts`:
exactly the segments `["", "api", "messages", <digits>, action]`. -/
def matchMessageActionPath (p action : String) : Bool :=
  let segs := pathSegs p
  decide (segs.length = 5) && decide (segs.getD 0 "x" = "") &&
    decide (segs.getD 1 "" = "api") && decide (segs.getD 2 "" = "messages") &&
    allDigits (segs.getD 3 "") && decide (segs.getD 4 "" = action)

/-- Route pattern `^\/api\/attachments\/\d+$` of `api.ts`: exactly the
segments `["", "api", "attachments", <digits>]`. -/
def matchAttachmentPath (p : String) : Bool :=
  let segs := pathSegs p
  decide (segs.length = 4) && decide (segs.getD 0 "x" = "") &&
    decide (segs.getD 1 "" = "api") && decide (segs.getD 2 "" = "attachments") &&
    allDigits (segs.getD 3 "")

/-- `handleRegister` of `api.ts`: validate the email, call
`auth.createUser`, answer 409 `USER_EXISTS` on the duplicate-user error
(which the TypeScript detects by its thrown message) and a success envelope
with id, email, token and creation time otherwise. -/
def handleRegister (sys : Sys) (req : Req) : Outcome :=
  match req.bodyEmail with
  | none => ⟨createErrorResponse "无效的邮箱地址" "INVALID_EMAIL" 400, sys.store, sys.users, false⟩
  | some email =>
    if isValidEmail email then
      match createUser sys.users email sys.freshId sys.freshToken sys.now with
      | Except.error RegError.DuplicateUser =>
          ⟨createErrorResponse "邮箱已被注册" "USER_EXISTS" 409, sys.store, sys.users, false⟩
      | Except.ok (u, users') =>
          ⟨createSuccessResponse (RespData.registeredUser u.id u.email u.token u.created_at),
            sys.store, users', false⟩
    else ⟨createErrorResponse "无效的邮箱地址" "INVALID_EMAIL" 400, sys.store, sys.users, false⟩

/-- Business part of `handleLogin` of `api.ts`, after its rate-limit gate:
validate the email, look the user up, answer 404 `USER_NOT_FOUND` when
absent and a success envelope carrying id, email, token and last login
otherwise. -/
def loginBusiness (users : List User) (bodyEmail : Option String) : Response :=
  match bodyEmail with
  | none => createErrorResponse "无效的邮箱地址" "INVALID_EMAIL" 400
  | some email =>
    if isValidEmail email then
      match getUserByEmail users email with
      | none => createErrorResponse "用户不存在" "USER_NOT_FOUND" 404
      | some u =>
          createSuccessResponse (RespData.loggedInUser u.id u.email u.token u.last_login)
    else createErrorResponse "无效的邮箱地址" "INVALID_EMAIL" 400

/-- `handleLogin` of `api.ts`: the `login_attempts` rate-limit gate first,
then the login business logic. -/
def handleLogin (sys : Sys) (req : Req) : Outcome :=
  match rateLimitMiddleware sys.store sys.now req LOGIN_ATTEMPTS with
  | (some resp, s) => ⟨resp, s, sys.users, false⟩
  | (none, s) => ⟨loginBusiness sys.users req.bodyEmail, s, sys.users, false⟩

/-- `handleGetMessages` of `api.ts`: authentication gate, then the message
list query (query parsing, pagination and attachment enrichment are the
out-of-scope metadata-store plumbing of spec §1). -/
def handleGetMessages (sys : Sys) (req : Req) : Outcome :=
  match requireAuth sys.users req with
  | Except.error resp => ⟨resp, sys.store, sys.users, false⟩
  | Except.ok _ => ⟨createSuccessResponse (RespData.plain "messages"), sys.store, sys.users, false⟩

/-- `handleGetMessage` of `api.ts`: authentication gate, owner-scoped lookup
of the id parsed from the last path segment, 404 `MESSAGE_NOT_FOUND` when
absent. -/
def handleGetMessage (sys : Sys) (req : Req) : Outcome :=
  match requireAuth sys.users req with
  | Except.error resp => ⟨resp, sys.store, sys.users, false⟩
  | Except.ok u =>
    let messageId := parseNatDigits (lastSegment req.pathname)
    match getMessageById sys.messages u.id messageId with
    | none => ⟨createErrorResponse "邮件不存在" "MESSAGE_NOT_FOUND" 404, sys.store, sys.users, false⟩
    | some m => ⟨createSuccessResponse (RespData.messageBody m.id), sys.store, sys.users, false⟩

/-- `handleMarkAsRead` of `api.ts`: authentication gate, owner-scoped lookup
of the id parsed from path segment 3, 404 when absent, then the metadata
update (an out-of-scope store effect) and a success envelope. -/
def handleMarkAsRead (sys : Sys) (req : Req) : Outcome :=
  match requireAuth sys.users req with
  | Except.error resp => ⟨resp, sys.store, sys.users, false⟩
  | Except.ok u =>
    let messageId := parseNatDigits (segAt req.pathname 3)
    match getMessageById sys.messages u.id messageId with
    | none => ⟨createErrorResponse "邮件不存在" "MESSAGE_NOT_FOUND" 404, sys.store, sys.users, false⟩
    | some _ => ⟨createSuccessResponse (RespData.plain "read"), sys.store, sys.users, false⟩

/-- `handleToggleStar` of `api.ts`: same shape as `handleMarkAsRead` with
the star toggle as the out-of-scope store effect. -/
def handleToggleStar (sys : Sys) (req : Req) : Outcome :=
  match requireAuth sys.users req with
  | Except.error resp => ⟨resp, sys.store, sys.users, false⟩
  | Except.ok u =>
    let messageId := parseNatDigits (segAt req.pathname 3)
    match getMessageById sys.messages u.id messageId with
    | none => ⟨createErrorResponse "邮件不存在" "MESSAGE_NOT_FOUND" 404, sys.store, sys.users, false⟩
    | some _ => ⟨createSuccessResponse (RespData.plain "star"), sys.store, sys.users, false⟩

/-- `handleDeleteMessage` of `api.ts`: authentication gate, owner-scoped
lookup of the id parsed from the last path segment, 404 when absent, then
the delete (an out-of-scope store effect) and a success envelope. -/
def handleDeleteMessage (sys : Sys) (req : Req) : Outcome :=
  match requireAuth sys.users req with
  | Except.error resp => ⟨resp, sys.store, sys.users, false⟩
  | Except.ok u =>
    let messageId := parseNatDigits (lastSegment req.pathname)
    match getMessageById sys.messages u.id messageId with
    | none => ⟨createErrorResponse "邮件不存在" "MESSAGE_NOT_FOUND" 404, sys.store, sys.users, false⟩
    | some _ => ⟨createSuccessResponse (RespData.plain "delete"), sys.store, sys.users, false⟩

/-- `handleSendEmail` of `api.ts`: authentication gate, then the
`email_sending` rate-limit gate, then the send pipeline (body validation,
sanitization and the transport queue are the out-of-scope collaborators of
spec §1). -/
def handleSendEmail (sys : Sys) (req : Req) : Outcome :=
  match requireAuth sys.users req with
  | Except.error resp => ⟨resp, sys.store, sys.users, false⟩
  | Except.ok _ =>
    match rateLimitMiddleware sys.store sys.now req EMAIL_SENDING with
    | (some resp, s) => ⟨resp, s, sys.users, false⟩
    | (none, s) => ⟨createSuccessResponse (RespData.plain "send"), s, sys.users, false⟩

/-- Raw file response of `handleDownloadAttachment` for a blob that exists. -/
def fileResponse (att : Attachment) : Response :=
  ⟨200, true, "", "", RespData.file att.r2_key,
    [("Content-Type", att.content_type),
     ("Content-Disposition", "attachment; filename=\"" ++ att.filename ++ "\""),
     ("Content-Length", Nat.repr att.size_bytes),
     ("Cache-Control", "private, max-age=3600")], none⟩

/-- `handleDownloadAttachment` of `api.ts`: authentication gate, the
`attachment_download` rate-limit gate, attachment lookup by the id parsed
from the last path segment (404 `ATTACHMENT_NOT_FOUND` when absent), then
the ownership check — the owner-scoped lookup of the attachment's message —
answering 403 `ACCESS_DENIED` when it fails; only past that check are the
bytes fetched from the blob store (404 `FILE_NOT_FOUND` when the key is
gone, the raw file response otherwise). -/
def handleDownloadAttachment (sys : Sys) (req : Req) : Outcome :=
  match requireAuth sys.users req with
  | Except.error resp => ⟨resp, sys.store, sys.users, false⟩
  | Except.ok u =>
    match rateLimitMiddleware sys.store sys.now req ATTACHMENT_DOWNLOAD with
    | (some resp, s) => ⟨resp, s, sys.users, false⟩
    | (none, s) =>
      let attachmentId := parseNatDigits (lastSegment req.pathname)
      match getAttachmentById sys.attachments attachmentId with
      | none => ⟨createErrorResponse "附件不存在" "ATTACHMENT_NOT_FOUND" 404, s, sys.users, false⟩
      | some att =>
        match getMessageById sys.messages u.id att.message_id with
        | none => ⟨createErrorResponse "无权限访问此附件" "ACCESS_DENIED" 403, s, sys.users, false⟩
        | some _ =>
          if sys.blobs.contains att.r2_key then
            ⟨fileResponse att, s, sys.users, true⟩
          else
            ⟨createErrorResponse "附件文件不存在" "FILE_NOT_FOUND" 404, s, sys.users, true⟩

/-- `handleGetProfile` of `api.ts`: authentication gate, then the profile
envelope for the resolved user. -/
def handleGetProfile (sys : Sys) (req : Req) : Outcome :=
  match requireAuth sys.users req with
  | Except.error resp => ⟨resp, sys.store, sys.users, false⟩
  | Except.ok u =>
      ⟨createSuccessResponse (RespData.profile u.id u.email u.created_at u.last_login u.status),
        sys.store, sys.users, false⟩

/-- `handleApiRequest` of `api.ts`: the `api_calls` rate-limit gate first,
then the route dispatch in source order, ending in 404 `ENDPOINT_NOT_FOUND`.
The surrounding catch-all (500 `INTERNAL_ERROR`) has no reachable trigger in
the embedding, where every modelled failure is a returned value. -/
def handleApiRequest (sys : Sys) (req : Req) : Outcome :=
  match rateLimitMiddleware sys.store sys.now req API_CALLS with
  | (some resp, s) => ⟨resp, s, sys.users, false⟩
  | (none, s) =>
    let sys' : Sys := { sys with store := s }
    if req.pathname = "/api/auth/register" ∧ req.method = Method.POST then
      handleRegister sys' req
    else if req.pathname = "/api/auth/login" ∧ req.method = Method.POST then
      handleLogin sys' req
    else if req.pathname = "/api/messages" ∧ req.method = Method.GET then
      handleGetMessages sys' req
    else if matchMessagePath req.pathname = true ∧ req.method = Method.GET then
      handleGetMessage sys' req
    else if matchMessageActionPath req.pathname "read" = true ∧ req.method = Method.PUT then
      handleMarkAsRead sys' req
    else if matchMessageActionPath req.pathname "star" = true ∧ req.method = Method.PUT then
      handleToggleStar sys' req
    else if matchMessagePath req.pathname = true ∧ req.method = Method.DELETE then
      handleDeleteMessage sys' req
    else if req.pathname = "/api/send" ∧ req.method = Method.POST then
      handleSendEmail sys' req
    else if matchAttachmentPath req.pathname = true ∧ req.method = Method.GET then
      handleDownloadAttachment sys' req
    else if req.pathname = "/api/user/profile" ∧ req.method = Method.GET then
      handleGetProfile sys' req
    else
      ⟨createErrorResponse "未找到API端点" "ENDPOINT_NOT_FOUND" 404, s, sys.users, false⟩

/-- CORS headers answered to a preflight request by `handleRequest`. -/
def corsHeaders : List (String × String) :=
  [("Access-Control-Allow-Origin", "*"),
   ("Access-Control-Allow-Methods", "GET, POST, PUT, DELETE, OPTIONS"),
   ("Access-Control-Allow-Headers", "Content-Type, Authorization"),
   ("Access-Control-Max-Age", "86400")]

/-- The 200 preflight response of `handleRequest`. -/
def corsResponse : Response :=
  ⟨200, true, "", "", RespData.noBody, corsHeaders, none⟩

/-- The served frontend page of `api.ts` (its HTML body is out-of-scope UI). -/
def frontendResponse : Response :=
  ⟨200, true, "", "", RespData.plain "frontend",
    [("Content-Type", "text/html"), ("Cache-Control", "public, max-age=300")], none⟩

/-- `handleRequest` of `api.ts`: every OPTIONS request is answered 200 with
the CORS headers before anything else; then `/api/` paths go through
`handleApiRequest`, `/health` answers the health envelope, `/` and
`/index.html` serve the frontend, asset-looking paths answer a plain 404,
and every other path falls back to the frontend (SPA routing); the trailing
`NOT_FOUND` line of the source is unreachable behind that fallback. -/
def handleRequest (sys : Sys) (req : Req) : Outcome :=
  if req.method = Method.OPTIONS then
    ⟨corsResponse, sys.store, sys.users, false⟩
  else if strStarts req.pathname "/api/" = true then
    handleApiRequest sys req
  else if req.pathname = "/health" then
    ⟨createSuccessResponse RespData.health, sys.store, sys.users, false⟩
  else if req.pathname = "/" ∨ req.pathname = "/index.html" then
    ⟨frontendResponse, sys.store, sys.users, false⟩
  else if strStarts req.pathname "/assets/" = true ∨ strEnds req.pathname ".css" = true ∨
      strEnds req.pathname ".js" = true then
    ⟨⟨404, false, "", "Static file not found", RespData.noBody, [], none⟩, sys.store, sys.users, false⟩
  else
    ⟨frontendResponse, sys.store, sys.users, false⟩

theorem storeGet_put_same (s : Store) (k : CKey) (c : Nat) :
    storeGet (storePut s k c) k = some c := by
  simp [storeGet, storePut]

theorem storeGet_put_ne (s : Store) (k k' : CKey) (c : Nat) (h : k ≠ k') :
    storeGet (storePut s k c) k' = storeGet s k' := by
  simp [storeGet, storePut, h]

theorem checkAndConsume_fst (store : Store) (now : Nat) (sk : ScopeKey) (p : Policy) :
    (checkAndConsume store now sk p).1 =
      if p.max_requests ≤ (storeGet store (ckey sk p (now / p.window_seconds))).getD 0 then
        Decision.deny (p.window_seconds - now % p.window_seconds)
      else Decision.allow := by
  by_cases h : p.max_requests ≤ (storeGet store (ckey sk p (now / p.window_seconds))).getD 0
  · simp [checkAndConsume, h]
  · simp [checkAndConsume, h]

theorem checkAndConsume_snd_get_ne (store : Store) (now : Nat) (sk : ScopeKey) (p : Policy)
    (k : CKey) (h : k ≠ ckey sk p (now / p.window_seconds)) :
    storeGet (checkAndConsume store now sk p).2 k = storeGet store k := by
  by_cases hc : p.max_requests ≤ (storeGet store (ckey sk p (now / p.window_seconds))).getD 0
  · simp [checkAndConsume, hc]
  · simp only [checkAndConsume]
    rw [if_neg hc]
    exact storeGet_put_ne _ _ _ _ (Ne.symm h)

theorem runCalls_get_none (p : Policy) (calls : List (Nat × ScopeKey)) (store : Store)
    (k : CKey) (hk : storeGet store k = none)
    (hb : ∀ c ∈ calls, k.bucket ≠ c.1 / p.window_seconds) :
    storeGet (runCalls p calls store) k = none := by
  induction calls generalizing store with
  | nil => exact hk
  | cons c rest ih =>
    simp only [runCalls]
    apply ih
    · rw [checkAndConsume_snd_get_ne]
      · exact hk
      · intro he
        exact hb c (List.mem_cons_self _ _) (by rw [he]; rfl)
    · intro c' hc'
      exact hb c' (List.mem_cons_of_mem _ hc')

theorem ckey_scope_inj (a a' : ScopeKey) (p p' : Policy) (b b' : Nat)
    (h : ckey a p b = ckey a' p' b') : a = a' := by
  obtain ⟨k, v⟩ := a
  obtain ⟨k', v'⟩ := a'
  simp only [ckey, CKey.mk.injEq] at h
  simp only [ScopeKey.mk.injEq]
  exact ⟨h.1, h.2.1⟩

theorem runCalls_get_other (p : Policy) (calls : List (Nat × ScopeKey)) (sk2 : ScopeKey)
    (hcalls : ∀ c ∈ calls, c.2 ≠ sk2) (store : Store) (b : Nat) :
    storeGet (runCalls p calls store) (ckey sk2 p b) = storeGet store (ckey sk2 p b) := by
  induction calls generalizing store with
  | nil => rfl
  | cons c rest ih =>
    simp only [runCalls]
    rw [ih (fun c' hc' => hcalls c' (List.mem_cons_of_mem _ hc'))]
    apply checkAndConsume_snd_get_ne
    intro he
    exact hcalls c (List.mem_cons_self _ _) (ckey_scope_inj _ _ _ _ _ _ he).symm

/-- C1: under a policy with `max_requests = 5` and `window_seconds = 60` and
a fresh scope key, five consecutive `checkAndConsume` calls within the same
60-second window all return Admit, and the sixth call in that window returns
Deny with `retryAfterSeconds` between 1 and 60 inclusive (it equals the
seconds remaining until the bucket boundary). -/
theorem c1_serial_rate_limit (p : Policy) (sk : ScopeKey) (store : Store)
    (t1 t2 t3 t4 t5 t6 b : Nat)
    (hm : p.max_requests = 5) (hw : p.window_seconds = 60)
    (hb1 : t1 / 60 = b) (hb2 : t2 / 60 = b) (hb3 : t3 / 60 = b)
    (hb4 : t4 / 60 = b) (hb5 : t5 / 60 = b) (hb6 : t6 / 60 = b)
    (hfresh : storeGet store (ckey sk p b) = none) :
    let r1 := checkAndConsume store t1 sk p
    let r2 := checkAndConsume r1.2 t2 sk p
    let r3 := checkAndConsume r2.2 t3 sk p
    let r4 := checkAndConsume r3.2 t4 sk p
    let r5 := checkAndConsume r4.2 t5 sk p
    let r6 := checkAndConsume r5.2 t6 sk p
    r1.1 = Decision.allow ∧ r2.1 = Decision.allow ∧ r3.1 = Decision.allow ∧
      r4.1 = Decision.allow ∧ r5.1 = Decision.allow ∧
      r6.1 = Decision.deny (60 - t6 % 60) ∧ 1 ≤ 60 - t6 % 60 ∧ 60 - t6 % 60 ≤ 60 := by
  have h1 : checkAndConsume store t1 sk p =
      (Decision.allow, storePut store (ckey sk p b) 1) := by
    simp [checkAndConsume, hw, hb1, hfresh, hm]
  have g1 : storeGet (storePut store (ckey sk p b) 1) (ckey sk p b) = some 1 :=
    storeGet_put_same _ _ _
  have h2 : checkAndConsume (storePut store (ckey sk p b) 1) t2 sk p =
      (Decision.allow, storePut (storePut store (ckey sk p b) 1) (ckey sk p b) 2) := by
    simp [checkAndConsume, hw, hb2, g1, hm]
  have g2 : storeGet (storePut (storePut store (ckey sk p b) 1) (ckey sk p b) 2)
      (ckey sk p b) = some 2 := storeGet_put_same _ _ _
  have h3 : checkAndConsume (storePut (storePut store (ckey sk p b) 1) (ckey sk p b) 2) t3 sk p =
      (Decision.allow, storePut (storePut (storePut store (ckey sk p b) 1) (ckey sk p b) 2)
        (ckey sk p b) 3) := by
    simp [checkAndConsume, hw, hb3, g2, hm]
  have g3 : storeGet (storePut (storePut (storePut store (ckey sk p b) 1) (ckey sk p b) 2)
      (ckey sk p b) 3) (ckey sk p b) = some 3 := storeGet_put_same _ _ _
  have h4 : checkAndConsume (storePut (storePut (storePut store (ckey sk p b) 1)
      (ckey sk p b) 2) (ckey sk p b) 3) t4 sk p =
      (Decision.allow, storePut (storePut (storePut (storePut store (ckey sk p b) 1)
        (ckey sk p b) 2) (ckey sk p b) 3) (ckey sk p b) 4) := by
    simp [checkAndConsume, hw, hb4, g3, hm]
  have g4 : storeGet (storePut (storePut (storePut (storePut store (ckey sk p b) 1)
      (ckey sk p b) 2) (ckey sk p b) 3) (ckey sk p b) 4) (ckey sk p b) = some 4 :=
    storeGet_put_same _ _ _
  have h5 : checkAndConsume (storePut (storePut (storePut (storePut store (ckey sk p b) 1)
      (ckey sk p b) 2) (ckey sk p b) 3) (ckey sk p b) 4) t5 sk p =
      (Decision.allow, storePut (storePut (storePut (storePut (storePut store (ckey sk p b) 1)
        (ckey sk p b) 2) (ckey sk p b) 3) (ckey sk p b) 4) (ckey sk p b) 5) := by
    simp [checkAndConsume, hw, hb5, g4, hm]
  have g5 : storeGet (storePut (storePut (storePut (storePut (storePut store (ckey sk p b) 1)
      (ckey sk p b) 2) (ckey sk p b) 3) (ckey sk p b) 4) (ckey sk p b) 5) (ckey sk p b) =
      some 5 := storeGet_put_same _ _ _
  have h6 : (checkAndConsume (storePut (storePut (storePut (storePut (storePut store
      (ckey sk p b) 1) (ckey sk p b) 2) (ckey sk p b) 3) (ckey sk p b) 4) (ckey sk p b) 5)
      t6 sk p).1 = Decision.deny (60 - t6 % 60) := by
    simp [checkAndConsume, hw, hb6, g5, hm]
  simp only [h1, h2, h3, h4, h5]
  refine ⟨trivial, trivial, trivial, trivial, trivial, h6, ?_, ?_⟩ <;> omega

/-- Witness for C1 at concrete inputs: the `login_attempts` policy
(5 per 60 s), a fresh ip-scoped key, six calls at seconds 0..50. -/
theorem c1_serial_rate_limit_witness :
    (let r1 := checkAndConsume [] 0 ⟨"ip", "203.0.113.7"⟩ LOGIN_ATTEMPTS
     let r2 := checkAndConsume r1.2 10 ⟨"ip", "203.0.113.7"⟩ LOGIN_ATTEMPTS
     let r3 := checkAndConsume r2.2 20 ⟨"ip", "203.0.113.7"⟩ LOGIN_ATTEMPTS
     let r4 := checkAndConsume r3.2 30 ⟨"ip", "203.0.113.7"⟩ LOGIN_ATTEMPTS
     let r5 := checkAndConsume r4.2 40 ⟨"ip", "203.0.113.7"⟩ LOGIN_ATTEMPTS
     let r6 := checkAndConsume r5.2 50 ⟨"ip", "203.0.113.7"⟩ LOGIN_ATTEMPTS
     r1.1 = Decision.allow ∧ r2.1 = Decision.allow ∧ r3.1 = Decision.allow ∧
       r4.1 = Decision.allow ∧ r5.1 = Decision.allow ∧
       r6.1 = Decision.deny (60 - 50 % 60) ∧ 1 ≤ 60 - 50 % 60 ∧ 60 - 50 % 60 ≤ 60) :=
  c1_serial_rate_limit LOGIN_ATTEMPTS ⟨"ip", "203.0.113.7"⟩ [] 0 10 20 30 40 50 0
    rfl rfl rfl rfl rfl rfl rfl rfl rfl

/-- C6: when the counter of a scope key is exhausted within window bucket
`b` (after any sequence of calls made at times whose buckets are at most
`b`), a `checkAndConsume` call for the same key at a time in a strictly
later bucket returns Admit, and the counter of the new bucket starts at 1. -/
theorem c6_window_reset (p : Policy) (sk : ScopeKey) (calls : List (Nat × ScopeKey))
    (b now : Nat) (hmax : 0 < p.max_requests)
    (hcalls : ∀ c ∈ calls, c.1 / p.window_seconds ≤ b)
    (hexh : p.max_requests ≤ (storeGet (runCalls p calls []) (ckey sk p b)).getD 0)
    (hlater : b < now / p.window_seconds) :
    (checkAndConsume (runCalls p calls []) now sk p).1 = Decision.allow ∧
    storeGet (checkAndConsume (runCalls p calls []) now sk p).2
      (ckey sk p (now / p.window_seconds)) = some 1 := by
  have hfresh : storeGet (runCalls p calls []) (ckey sk p (now / p.window_seconds)) = none := by
    apply runCalls_get_none
    · rfl
    · intro c hc
      have hle := hcalls c hc
      show now / p.window_seconds ≠ c.1 / p.window_seconds
      omega
  have hng : ¬ p.max_requests ≤ (0 : Nat) := by omega
  constructor
  · rw [checkAndConsume_fst, hfresh]
    simpa using hng
  · simp [checkAndConsume, hfresh, hng, storeGet_put_same]

/-- Witness for C6 at concrete inputs: five calls at seconds 0..4 exhaust
the `login_attempts` allowance in bucket 0; a call at second 61 (bucket 1)
admits and starts the new bucket's counter at 1. -/
theorem c6_window_reset_witness :
    (checkAndConsume (runCalls LOGIN_ATTEMPTS
        [(0, ⟨"ip", "198.51.100.9"⟩), (1, ⟨"ip", "198.51.100.9"⟩), (2, ⟨"ip", "198.51.100.9"⟩),
         (3, ⟨"ip", "198.51.100.9"⟩), (4, ⟨"ip", "198.51.100.9"⟩)] [])
      61 ⟨"ip", "198.51.100.9"⟩ LOGIN_ATTEMPTS).1 = Decision.allow ∧
    storeGet (checkAndConsume (runCalls LOGIN_ATTEMPTS
        [(0, ⟨"ip", "198.51.100.9"⟩), (1, ⟨"ip", "198.51.100.9"⟩), (2, ⟨"ip", "198.51.100.9"⟩),
         (3, ⟨"ip", "198.51.100.9"⟩), (4, ⟨"ip", "198.51.100.9"⟩)] [])
      61 ⟨"ip", "198.51.100.9"⟩ LOGIN_ATTEMPTS).2
      (ckey ⟨"ip", "198.51.100.9"⟩ LOGIN_ATTEMPTS (61 / LOGIN_ATTEMPTS.window_seconds)) =
      some 1 :=
  c6_window_reset LOGIN_ATTEMPTS ⟨"ip", "198.51.100.9"⟩
    [(0, ⟨"ip", "198.51.100.9"⟩), (1, ⟨"ip", "198.51.100.9"⟩), (2, ⟨"ip", "198.51.100.9"⟩),
     (3, ⟨"ip", "198.51.100.9"⟩), (4, ⟨"ip", "198.51.100.9"⟩)]
    0 61 (by decide) (by decide) (by decide) (by decide)

/-- C7: `checkAndConsume` calls for scope keys other than `sk2` under the
same policy never change `sk2`'s counters: after any such sequence of calls
every counter of `sk2` is unchanged, and a subsequent `checkAndConsume`
decision for `sk2` is the same as it would have been without the sequence —
in particular exhausting one key's limit leaves the other key unaffected. -/
theorem c7_scope_isolation (p : Policy) (calls : List (Nat × ScopeKey)) (sk2 : ScopeKey)
    (hcalls : ∀ c ∈ calls, c.2 ≠ sk2) (store : Store) (b t : Nat) :
    storeGet (runCalls p calls store) (ckey sk2 p b) = storeGet store (ckey sk2 p b) ∧
    (checkAndConsume (runCalls p calls store) t sk2 p).1 =
      (checkAndConsume store t sk2 p).1 := by
  refine ⟨runCalls_get_other p calls sk2 hcalls store b, ?_⟩
  rw [checkAndConsume_fst, checkAndConsume_fst,
    runCalls_get_other p calls sk2 hcalls store (t / p.window_seconds)]

/-- Witness for C7 at concrete inputs: five exhausting calls for one ip key
leave a second ip key's counter and decision unchanged. -/
theorem c7_scope_isolation_witness :
    storeGet (runCalls LOGIN_ATTEMPTS
        [(0, ⟨"ip", "10.0.0.1"⟩), (0, ⟨"ip", "10.0.0.1"⟩), (0, ⟨"ip", "10.0.0.1"⟩),
         (0, ⟨"ip", "10.0.0.1"⟩), (0, ⟨"ip", "10.0.0.1"⟩)] [])
      (ckey ⟨"ip", "10.0.0.2"⟩ LOGIN_ATTEMPTS 0) =
      storeGet [] (ckey ⟨"ip", "10.0.0.2"⟩ LOGIN_ATTEMPTS 0) ∧
    (checkAndConsume (runCalls LOGIN_ATTEMPTS
        [(0, ⟨"ip", "10.0.0.1"⟩), (0, ⟨"ip", "10.0.0.1"⟩), (0, ⟨"ip", "10.0.0.1"⟩),
         (0, ⟨"ip", "10.0.0.1"⟩), (0, ⟨"ip", "10.0.0.1"⟩)] [])
      30 ⟨"ip", "10.0.0.2"⟩ LOGIN_ATTEMPTS).1 =
      (checkAndConsume [] 30 ⟨"ip", "10.0.0.2"⟩ LOGIN_ATTEMPTS).1 :=
  c7_scope_isolation LOGIN_ATTEMPTS
    [(0, ⟨"ip", "10.0.0.1"⟩), (0, ⟨"ip", "10.0.0.1"⟩), (0, ⟨"ip", "10.0.0.1"⟩),
     (0, ⟨"ip", "10.0.0.1"⟩), (0, ⟨"ip", "10.0.0.1"⟩)]
    ⟨"ip", "10.0.0.2"⟩ (by decide) [] 0 30

theorem rateLimitMiddleware_allow (store : Store) (now : Nat) (req : Req) (p : Policy)
    (h : (checkAndConsume store now (scopeKeyOf req p) p).1 = Decision.allow) :
    rateLimitMiddleware store now req p =
      (none, (checkAndConsume store now (scopeKeyOf req p) p).2) := by
  unfold rateLimitMiddleware
  cases hcc : checkAndConsume store now (scopeKeyOf req p) p with
  | mk d s =>
    rw [hcc] at h
    cases d with
    | allow => rfl
    | deny r => exact absurd h (by simp)

theorem rateLimitMiddleware_deny (store : Store) (now : Nat) (req : Req) (p : Policy) (r : Nat)
    (h : (checkAndConsume store now (scopeKeyOf req p) p).1 = Decision.deny r) :
    rateLimitMiddleware store now req p =
      (some (rateLimitedResponse r), (checkAndConsume store now (scopeKeyOf req p) p).2) := by
  unfold rateLimitMiddleware
  cases hcc : checkAndConsume store now (scopeKeyOf req p) p with
  | mk d s =>
    rw [hcc] at h
    cases d with
    | allow => exact absurd h (by simp)
    | deny r' =>
      simp only [Decision.deny.injEq] at h
      subst h
      rfl

theorem checkAndConsumeFallible_ok_agrees (store : Store) (now : Nat) (sk : ScopeKey)
    (p : Policy) :
    checkAndConsumeFallible (Except.ok (storeGet store (ckey sk p (now / p.window_seconds))))
      now p = (checkAndConsume store now sk p).1 := by
  rw [checkAndConsume_fst]
  rfl

/-- C3: `authenticate` returns `MissingCredential` exactly when the request
has no Authorization header, `MalformedCredential` when the header is
present but not of the `Bearer <token>` shape, `InvalidCredential` when the
token is well-formed but resolves to no registered user, and the resolved
user's identity when the token is valid and registered. -/
theorem c3_authenticate_cases (users : List User) (req : Req) :
    (req.authorization = none →
      authenticate users req = Except.error AuthError.MissingCredential) ∧
    (∀ h, req.authorization = some h → extractBearer h = none →
      authenticate users req = Except.error AuthError.MalformedCredential) ∧
    (∀ h t, req.authorization = some h → extractBearer h = some t →
      findByToken users t = none →
      authenticate users req = Except.error AuthError.InvalidCredential) ∧
    (∀ h t u, req.authorization = some h → extractBearer h = some t →
      findByToken users t = some u →
      authenticate users req = Except.ok u) := by
  refine ⟨?_, ?_, ?_, ?_⟩
  · intro h0
    simp [authenticate, h0]
  · intro h hh hb
    simp [authenticate, hh, hb]
  · intro h t hh hb hf
    simp [authenticate, hh, hb, hf]
  · intro h t u hh hb hf
    simp [authenticate, hh, hb, hf]

/-- Witness for C3 at concrete inputs, covering all four cases, including a
bare `Bearer` header with no token and a `Basic abc` header. -/
theorem c3_authenticate_cases_witness :
    authenticate [⟨1, "a@example.com", "tok123", 0, none, "active"⟩]
      ⟨Method.GET, "/api/messages", none, none, "ip1"⟩ =
      Except.error AuthError.MissingCredential ∧
    authenticate [⟨1, "a@example.com", "tok123", 0, none, "active"⟩]
      ⟨Method.GET, "/api/messages", some "Bearer", none, "ip1"⟩ =
      Except.error AuthError.MalformedCredential ∧
    authenticate [⟨1, "a@example.com", "tok123", 0, none, "active"⟩]
      ⟨Method.GET, "/api/messages", some "Basic abc", none, "ip1"⟩ =
      Except.error AuthError.MalformedCredential ∧
    authenticate [⟨1, "a@example.com", "tok123", 0, none, "active"⟩]
      ⟨Method.GET, "/api/messages", some "Bearer nope", none, "ip1"⟩ =
      Except.error AuthError.InvalidCredential ∧
    authenticate [⟨1, "a@example.com", "tok123", 0, none, "active"⟩]
      ⟨Method.GET, "/api/messages", some "Bearer tok123", none, "ip1"⟩ =
      Except.ok ⟨1, "a@example.com", "tok123", 0, none, "active"⟩ := by
  refine ⟨?_, ?_, ?_, ?_, ?_⟩
  · exact (c3_authenticate_cases _ _).1 rfl
  · exact (c3_authenticate_cases _ _).2.1 "Bearer" rfl (by decide)
  · exact (c3_authenticate_cases _ _).2.1 "Basic abc" rfl (by decide)
  · exact (c3_authenticate_cases _ _).2.2.1 "Bearer nope" "nope" rfl (by decide) (by decide)
  · exact (c3_authenticate_cases _ _).2.2.2 "Bearer tok123" "tok123" _ rfl (by decide) (by decide)

/-- C5: when the Counter Store read fails (unavailable or timed out), the
rate-limit decision is Admit — never a denial — so the request proceeds
rather than being rejected or answered with a 500; when the Identity
Registry lookup fails during authentication of a well-formed bearer
credential, the result is an `AuthError` rejection (fail-closed). -/
theorem c5_fail_open_fail_closed (f : StoreFault) (now : Nat) (p : Policy)
    (h tkn : String) (hb : extractBearer h = some tkn) :
    checkAndConsumeFallible (Except.error f) now p = Decision.allow ∧
    (∀ r, checkAndConsumeFallible (Except.error f) now p ≠ Decision.deny r) ∧
    (∃ e, authenticateFallible (Except.error f) (some h) = Except.error e) := by
  refine ⟨rfl, ?_, ?_⟩
  · intro r
    simp [checkAndConsumeFallible]
  · refine ⟨AuthError.InvalidCredential, ?_⟩
    simp [authenticateFallible, hb]

/-- Witness for C5 at concrete inputs: an unavailable store at second 5
under `login_attempts`, and a well-formed `Bearer tok123` credential. -/
theorem c5_fail_open_fail_closed_witness :
    checkAndConsumeFallible (Except.error StoreFault.unavailable) 5 LOGIN_ATTEMPTS =
      Decision.allow ∧
    (∀ r, checkAndConsumeFallible (Except.error StoreFault.unavailable) 5 LOGIN_ATTEMPTS ≠
      Decision.deny r) ∧
    (∃ e, authenticateFallible (Except.error StoreFault.unavailable) (some "Bearer tok123") =
      Except.error e) :=
  c5_fail_open_fail_closed StoreFault.unavailable 5 LOGIN_ATTEMPTS "Bearer tok123" "tok123"
    (by decide)

/-- C4: once `createUser` has succeeded for an email, a second registration
attempt with the same normalized email fails with `DuplicateUser`, which
`handleRegister` surfaces as HTTP 409 with code `USER_EXISTS`; the registry
is unchanged by the failed attempt and still holds the first call's User. -/
theorem c4_duplicate_registration (sys : Sys) (req : Req) (users0 : List User)
    (e1 e2 : String) (id1 : Nat) (tok1 : String) (n1 : Nat) (u : User)
    (hok : createUser users0 e1 id1 tok1 n1 = Except.ok (u, sys.users))
    (hnorm : normalizeEmail e2 = normalizeEmail e1)
    (hv2 : isValidEmail e2 = true)
    (hb : req.bodyEmail = some e2) :
    createUser sys.users e2 sys.freshId sys.freshToken sys.now =
      Except.error RegError.DuplicateUser ∧
    (handleRegister sys req).resp.status = 409 ∧
    (handleRegister sys req).resp.code = "USER_EXISTS" ∧
    (handleRegister sys req).users = sys.users ∧
    u ∈ sys.users ∧ u.email = e1 := by
  unfold createUser at hok
  by_cases hdup : users0.any (fun u' => decide (normalizeEmail u'.email = normalizeEmail e1))
  · rw [if_pos hdup] at hok
    exact absurd hok (by simp)
  · rw [if_neg hdup] at hok
    simp only [Except.ok.injEq, Prod.mk.injEq] at hok
    obtain ⟨hu, husers⟩ := hok
    have hmem : u ∈ sys.users := by
      rw [← husers, ← hu]
      simp
    have hemail : u.email = e1 := by rw [← hu]
    have hdup2 : sys.users.any
        (fun u' => decide (normalizeEmail u'.email = normalizeEmail e2)) = true := by
      refine List.any_eq_true.mpr ⟨u, hmem, ?_⟩
      simp [hemail, hnorm]
    have hcreate : createUser sys.users e2 sys.freshId sys.freshToken sys.now =
        Except.error RegError.DuplicateUser := by
      simp [createUser, hdup2]
    refine ⟨hcreate, ?_, ?_, ?_, hmem, hemail⟩ <;>
      simp [handleRegister, hb, hv2, hcreate, createErrorResponse]

/-- Witness for C4 at concrete inputs: registering `A@Example.com` and then
`a@example.COM` (the same normalized email) against the resulting registry. -/
theorem c4_duplicate_registration_witness :
    createUser [⟨1, "A@Example.com", "tokA", 0, none, "active"⟩] "a@example.COM" 2 "tokB" 9 =
      Except.error RegError.DuplicateUser ∧
    (handleRegister
        ⟨[], 9, [⟨1, "A@Example.com", "tokA", 0, none, "active"⟩], [], [], [], 2, "tokB"⟩
        ⟨Method.POST, "/api/auth/register", none, some "a@example.COM", "ip1"⟩).resp.status =
      409 ∧
    (handleRegister
        ⟨[], 9, [⟨1, "A@Example.com", "tokA", 0, none, "active"⟩], [], [], [], 2, "tokB"⟩
        ⟨Method.POST, "/api/auth/register", none, some "a@example.COM", "ip1"⟩).resp.code =
      "USER_EXISTS" ∧
    (handleRegister
        ⟨[], 9, [⟨1, "A@Example.com", "tokA", 0, none, "active"⟩], [], [], [], 2, "tokB"⟩
        ⟨Method.POST, "/api/auth/register", none, some "a@example.COM", "ip1"⟩).users =
      [⟨1, "A@Example.com", "tokA", 0, none, "active"⟩] ∧
    (⟨1, "A@Example.com", "tokA", 0, none, "active"⟩ : User) ∈
      [(⟨1, "A@Example.com", "tokA", 0, none, "active"⟩ : User)] ∧
    User.email ⟨1, "A@Example.com", "tokA", 0, none, "active"⟩ = "A@Example.com" :=
  c4_duplicate_registration
    ⟨[], 9, [⟨1, "A@Example.com", "tokA", 0, none, "active"⟩], [], [], [], 2, "tokB"⟩
    ⟨Method.POST, "/api/auth/register", none, some "a@example.COM", "ip1"⟩
    [] "A@Example.com" "a@example.COM" 1 "tokA" 0
    ⟨1, "A@Example.com", "tokA", 0, none, "active"⟩
    rfl (by decide) (by decide) rfl

/-- C9: a POST login request carrying only a registered email (the embedded
request body holds nothing but the optional email field — no token or other
credential) and admitted by the `login_attempts` gate is answered with the
success envelope carrying that user's id, email, bearer token and last
login; an unregistered email is answered 404 with code `USER_NOT_FOUND`. -/
theorem c9_login_token_by_email (sys : Sys) (req : Req) (email : String)
    (hb : req.bodyEmail = some email)
    (hv : isValidEmail email = true)
    (hgate : (checkAndConsume sys.store sys.now (scopeKeyOf req LOGIN_ATTEMPTS)
      LOGIN_ATTEMPTS).1 = Decision.allow) :
    (∀ u, getUserByEmail sys.users email = some u →
      (handleLogin sys req).resp =
        createSuccessResponse (RespData.loggedInUser u.id u.email u.token u.last_login)) ∧
    (getUserByEmail sys.users email = none →
      (handleLogin sys req).resp.status = 404 ∧
      (handleLogin sys req).resp.code = "USER_NOT_FOUND") := by
  have hmw := rateLimitMiddleware_allow _ _ _ _ hgate
  constructor
  · intro u hu
    simp [handleLogin, hmw, loginBusiness, hb, hv, hu]
  · intro hu
    simp [handleLogin, hmw, loginBusiness, hb, hv, hu, createErrorResponse]

/-- Witness for C9 at concrete inputs: login with the registered email
answers the envelope carrying the user's token. -/
theorem c9_login_token_by_email_witness :
    (handleLogin ⟨[], 0, [⟨1, "a@example.com", "tok123", 0, none, "active"⟩], [], [], [], 5, "t"⟩
        ⟨Method.POST, "/api/auth/login", none, some "a@example.com", "ip1"⟩).resp =
      createSuccessResponse (RespData.loggedInUser 1 "a@example.com" "tok123" none) :=
  (c9_login_token_by_email
      ⟨[], 0, [⟨1, "a@example.com", "tok123", 0, none, "active"⟩], [], [], [], 5, "t"⟩
      ⟨Method.POST, "/api/auth/login", none, some "a@example.com", "ip1"⟩
      "a@example.com" rfl (by decide) (by decide)).1
    ⟨1, "a@example.com", "tok123", 0, none, "active"⟩ (by decide)

/-- C2: a POST request to the login endpoint is gated by the `api_calls`
check first and the `login_attempts` check second; it reaches the login
business logic exactly when both admit, and whichever check denies first
makes its 429 rate-limit denial the response instead. -/
theorem c2_login_double_gating (sys : Sys) (req : Req)
    (hpath : req.pathname = "/api/auth/login") (hmeth : req.method = Method.POST) :
    (∀ r, (checkAndConsume sys.store sys.now (scopeKeyOf req API_CALLS) API_CALLS).1 =
        Decision.deny r →
      (handleApiRequest sys req).resp = rateLimitedResponse r) ∧
    (∀ r, (checkAndConsume sys.store sys.now (scopeKeyOf req API_CALLS) API_CALLS).1 =
        Decision.allow →
      (checkAndConsume (checkAndConsume sys.store sys.now (scopeKeyOf req API_CALLS)
          API_CALLS).2 sys.now (scopeKeyOf req LOGIN_ATTEMPTS) LOGIN_ATTEMPTS).1 =
        Decision.deny r →
      (handleApiRequest sys req).resp = rateLimitedResponse r) ∧
    ((checkAndConsume sys.store sys.now (scopeKeyOf req API_CALLS) API_CALLS).1 =
        Decision.allow →
      (checkAndConsume (checkAndConsume sys.store sys.now (scopeKeyOf req API_CALLS)
          API_CALLS).2 sys.now (scopeKeyOf req LOGIN_ATTEMPTS) LOGIN_ATTEMPTS).1 =
        Decision.allow →
      (handleApiRequest sys req).resp = loginBusiness sys.users req.bodyEmail) := by
  refine ⟨?_, ?_, ?_⟩
  · intro r hd
    have hmw := rateLimitMiddleware_deny _ _ _ _ _ hd
    simp [handleApiRequest, hmw]
  · intro r ha hd
    have hmw1 := rateLimitMiddleware_allow _ _ _ _ ha
    have hmw2 := rateLimitMiddleware_deny _ _ _ _ _ hd
    simp [handleApiRequest, hmw1, hpath, hmeth, handleLogin, hmw2]
  · intro ha1 ha2
    have hmw1 := rateLimitMiddleware_allow _ _ _ _ ha1
    have hmw2 := rateLimitMiddleware_allow _ _ _ _ ha2
    simp [handleApiRequest, hmw1, hpath, hmeth, handleLogin, hmw2]

/-- Witness for C2 at concrete inputs: with both gates admitting on a fresh
store, the login request is answered by the login business logic. -/
theorem c2_login_double_gating_witness :
    (handleApiRequest
        ⟨[], 0, [⟨1, "a@example.com", "tok123", 0, none, "active"⟩], [], [], [], 5, "t"⟩
        ⟨Method.POST, "/api/auth/login", some "Bearer tok123", some "a@example.com", "ip1"⟩).resp =
      loginBusiness [⟨1, "a@example.com", "tok123", 0, none, "active"⟩] (some "a@example.com") :=
  (c2_login_double_gating
      ⟨[], 0, [⟨1, "a@example.com", "tok123", 0, none, "active"⟩], [], [], [], 5, "t"⟩
      ⟨Method.POST, "/api/auth/login", some "Bearer tok123", some "a@example.com", "ip1"⟩
      rfl rfl).2.2 (by decide) (by decide)

/-- C10: every OPTIONS request, whatever its path, is answered immediately
with the 200 CORS-preflight response; the Counter Store and the registry are
untouched (no rate-limit or authentication check runs) and the outcome does
not depend on the request's credentials. -/
theorem c10_options_cors (sys : Sys) (req : Req) (h : req.method = Method.OPTIONS) :
    handleRequest sys req = ⟨corsResponse, sys.store, sys.users, false⟩ ∧
    corsResponse.status = 200 ∧ corsResponse.headers = corsHeaders := by
  refine ⟨?_, rfl, rfl⟩
  unfold handleRequest
  rw [if_pos h]

/-- Witness for C10 at a concrete OPTIONS request to a protected path with
no credentials. -/
theorem c10_options_cors_witness :
    handleRequest ⟨[], 0, [], [], [], [], 1, "t"⟩
        ⟨Method.OPTIONS, "/api/messages", none, none, "ip1"⟩ =
      ⟨corsResponse, [], [], false⟩ ∧
    corsResponse.status = 200 ∧ corsResponse.headers = corsHeaders :=
  c10_options_cors ⟨[], 0, [], [], [], [], 1, "t"⟩
    ⟨Method.OPTIONS, "/api/messages", none, none, "ip1"⟩ rfl

/-- C8: an authenticated GET request routed to `/api/attachments/:id`,
admitted by both rate-limit gates, for an attachment that exists but whose
message is not owned by the authenticated user, is answered 403 with code
`ACCESS_DENIED`, and no attachment bytes are fetched from the blob store. -/
theorem c8_attachment_access_denied (sys : Sys) (req : Req) (s : String) (u : User)
    (att : Attachment)
    (hmeth : req.method = Method.GET)
    (hsegs : pathSegs req.pathname = ["", "api", "attachments", s])
    (hdig : allDigits s = true)
    (hauth : requireAuth sys.users req = Except.ok u)
    (hgate1 : (checkAndConsume sys.store sys.now (scopeKeyOf req API_CALLS) API_CALLS).1 =
      Decision.allow)
    (hgate2 : (checkAndConsume (checkAndConsume sys.store sys.now (scopeKeyOf req API_CALLS)
        API_CALLS).2 sys.now (scopeKeyOf req ATTACHMENT_DOWNLOAD) ATTACHMENT_DOWNLOAD).1 =
      Decision.allow)
    (hatt : getAttachmentById sys.attachments (parseNatDigits s) = some att)
    (hnotowned : ∀ m ∈ sys.messages, m.id = att.message_id → m.user_id ≠ u.id) :
    (handleApiRequest sys req).resp.status = 403 ∧
    (handleApiRequest sys req).resp.code = "ACCESS_DENIED" ∧
    (handleApiRequest sys req).blobFetched = false := by
  have hmw1 := rateLimitMiddleware_allow _ _ _ _ hgate1
  have hmw2 := rateLimitMiddleware_allow _ _ _ _ hgate2
  have hne : req.pathname ≠ "/api/messages" := by
    intro hp
    rw [hp] at hsegs
    have hps : pathSegs "/api/messages" = ["", "api", "messages"] := by decide
    rw [hps] at hsegs
    simp at hsegs
  have hmm1 : matchMessagePath req.pathname = false := by
    unfold matchMessagePath
    rw [hsegs]
    rfl
  have hma : matchAttachmentPath req.pathname = true := by
    unfold matchAttachmentPath
    rw [hsegs]
    exact hdig
  have hlast : lastSegment req.pathname = s := by
    unfold lastSegment
    rw [hsegs]
    rfl
  have hmsg : getMessageById sys.messages u.id att.message_id = none := by
    unfold getMessageById
    rw [List.find?_eq_none]
    intro m hm
    simp only [Bool.and_eq_true, decide_eq_true_eq, not_and]
    exact hnotowned m hm
  refine ⟨?_, ?_, ?_⟩ <;>
    simp [handleApiRequest, hmw1, hmeth, hne, hmm1, hma, handleDownloadAttachment, hauth,
      hmw2, hlast, hatt, hmsg, createErrorResponse]

/-- Witness for C8 at concrete inputs: user 1 downloads attachment 7, which
belongs to message 99 owned by user 2. -/
theorem c8_attachment_access_denied_witness :
    (handleApiRequest
        ⟨[], 0, [⟨1, "a@example.com", "tok123", 0, none, "active"⟩], [⟨99, 2⟩],
          [⟨7, 99, "k7", "f.txt", "text/plain", 3⟩], ["k7"], 5, "t"⟩
        ⟨Method.GET, "/api/attachments/7", some "Bearer tok123", none, "ip1"⟩).resp.status =
      403 ∧
    (handleApiRequest
        ⟨[], 0, [⟨1, "a@example.com", "tok123", 0, none, "active"⟩], [⟨99, 2⟩],
          [⟨7, 99, "k7", "f.txt", "text/plain", 3⟩], ["k7"], 5, "t"⟩
        ⟨Method.GET, "/api/attachments/7", some "Bearer tok123", none, "ip1"⟩).resp.code =
      "ACCESS_DENIED" ∧
    (handleApiRequest
        ⟨[], 0, [⟨1, "a@example.com", "tok123", 0, none, "active"⟩], [⟨99, 2⟩],
          [⟨7, 99, "k7", "f.txt", "text/plain", 3⟩], ["k7"], 5, "t"⟩
        ⟨Method.GET, "/api/attachments/7", some "Bearer tok123", none, "ip1"⟩).blobFetched =
      false :=
  c8_attachment_access_denied
    ⟨[], 0, [⟨1, "a@example.com", "tok123", 0, none, "active"⟩], [⟨99, 2⟩],
      [⟨7, 99, "k7", "f.txt", "text/plain", 3⟩], ["k7"], 5, "t"⟩
    ⟨Method.GET, "/api/attachments/7", some "Bearer tok123", none, "ip1"⟩
    "7" ⟨1, "a@example.com", "tok123", 0, none, "active"⟩
    ⟨7, 99, "k7", "f.txt", "text/plain", 3⟩
    rfl (by decide) (by decide) rfl (by decide) (by decide) (by decide) (by decide)
